import Mathlib

/-!
Shallow embedding of `scripts/generate_icons.py` from the CatClipboard
repository, together with theorems checking the specification's claims.

The script is a linear pipeline: resolve fixed paths, check that the
source icon exists, decode it to RGBA, upscale to 512×512 when its larger
dimension is below 512, then write three PNGs, one multi-size ICO and one
multi-size ICNS, and print a confirmation line.

The embedding keeps rasters symbolic (a decoded source raster, or a
resize of a raster at a given target size and filter), so that the
provenance of every written file is visible in the model, and models the
filesystem as a function from paths to optional file contents.
-/

namespace IconGen

/-- A filesystem path, modelled as its list of components. -/
abbrev FPath := List String

/-- `Path.parent` of the imaging script's path library: drop the last
component. -/
def FPath.parent (p : FPath) : FPath := p.dropLast

/-- Resampling filters of the imaging library that the script uses.  The
script only ever passes `Image.LANCZOS`. -/
inductive Filter where
  | lanczos
deriving DecidableEq

/-- An in-memory raster.  The pixel data is kept symbolic: a raster is
either the RGBA decode of the source file (its dimensions and an abstract
content identifier standing for the pixel bytes), or the result of
resizing a raster to a target size with a given filter.  The imaging
library's resize is deterministic, so this derivation tree determines the
pixel data. -/
inductive Raster where
  | decoded (w h : Nat) (content : Nat)
  | resized (r : Raster) (w h : Nat) (f : Filter)
deriving DecidableEq

/-- Width of a raster: the library's resize always produces exactly the
requested target width. -/
def Raster.width : Raster → Nat
  | .decoded w _ _ => w
  | .resized _ w _ _ => w

/-- Height of a raster: the library's resize always produces exactly the
requested target height. -/
def Raster.height : Raster → Nat
  | .decoded _ h _ => h
  | .resized _ _ h _ => h

/-- `img.size` of the imaging library: a (width, height) pair. -/
def Raster.size (r : Raster) : Nat × Nat := (r.width, r.height)

/-- `img.resize(size, filter)`. -/
def Raster.resize (r : Raster) (s : Nat × Nat) (f : Filter) : Raster :=
  .resized r s.1 s.2 f

/-- The decoded source image: dimensions plus an abstract content
identifier standing for its pixel bytes. -/
structure SourceImage where
  width : Nat
  height : Nat
  content : Nat
deriving DecidableEq

/-- `Image.open(SOURCE_ICON).convert("RGBA")`: decode the source file
into an RGBA raster. -/
def decodeRGBA (s : SourceImage) : Raster := .decoded s.width s.height s.content

/-- Lines 13–14 of the script: if the larger dimension is below 512,
replace the raster by a 512×512 Lanczos resize of itself. -/
def ensureMin512 (img : Raster) : Raster :=
  if max img.width img.height < 512 then img.resize (512, 512) .lanczos else img

/-- Line 4: `BASE_DIR = Path(__file__).resolve().parent.parent /
"src-tauri" / "icons"`, as a function of the resolved script file path. -/
def BASE_DIR (scriptFile : FPath) : FPath :=
  scriptFile.parent.parent ++ ["src-tauri", "icons"]

/-- Line 5: `SOURCE_ICON = BASE_DIR / "icon.png"`. -/
def SOURCE_ICON (scriptFile : FPath) : FPath :=
  BASE_DIR scriptFile ++ ["icon.png"]

/-- The resolved path of the script itself: the project root followed by
the fixed components `scripts/generate_icons.py`. -/
def scriptPath (root : FPath) : FPath := root ++ ["scripts", "generate_icons.py"]

/-- Line 17–21: the fixed PNG targets (file name, target size). -/
def png_targets : List (String × (Nat × Nat)) :=
  [("32x32.png", (32, 32)), ("128x128.png", (128, 128)), ("128x128@2x.png", (256, 256))]

/-- Line 28: the seven sizes embedded in the ICO container. -/
def ico_sizes : List (Nat × Nat) :=
  [(16, 16), (24, 24), (32, 32), (48, 48), (64, 64), (128, 128), (256, 256)]

/-- Line 32: the six sizes embedded in the ICNS container. -/
def icns_sizes : List (Nat × Nat) :=
  [(16, 16), (32, 32), (64, 64), (128, 128), (256, 256), (512, 512)]

/-- Contents of a file in the model: the encoded source PNG (decodable to
a `SourceImage`), or one of the three output encodings.  An output
records the raster handed to the encoder and, for the container formats,
the size list passed to `save`, since the encoder performs the per-size
resizing internally and deterministically. -/
inductive FileContent where
  | srcPng (s : SourceImage)
  | outPng (r : Raster)
  | outIco (r : Raster) (sizes : List (Nat × Nat))
  | outIcns (r : Raster) (sizes : List (Nat × Nat))
deriving DecidableEq

/-- Decoding a file as an image, as `Image.open(...).convert("RGBA")`
would: defined for an encoded source PNG, `none` models an uncaught
decoding fault on anything else. -/
def FileContent.decode : FileContent → Option SourceImage
  | .srcPng s => some s
  | _ => none

/-- The sizes embedded in an ICO container file, `[]` for other files. -/
def FileContent.icoEntrySizes : FileContent → List (Nat × Nat)
  | .outIco _ sizes => sizes
  | _ => []

/-- The sizes embedded in an ICNS container file, `[]` for other files. -/
def FileContent.icnsEntrySizes : FileContent → List (Nat × Nat)
  | .outIcns _ sizes => sizes
  | _ => []

/-- One observable side effect of the script: a file write or a line
printed to standard output. -/
inductive Event where
  | write (path : FPath) (data : FileContent)
  | print (msg : String)
deriving DecidableEq

/-- Render a path the way Python prints a `Path` in an f-string. -/
def pathStr (p : FPath) : String := String.intercalate "/" p

/-- Lines 23–35 of the script, given a decoded source image: the ordered
list of side effects of the generation pipeline (three PNG writes, the
ICO write, the ICNS write, the confirmation print). -/
def outputEvents (root : FPath) (s : SourceImage) : List Event :=
  let img := ensureMin512 (decodeRGBA s)
  (png_targets.map fun nt =>
    Event.write (BASE_DIR (scriptPath root) ++ [nt.1]) (.outPng (img.resize nt.2 .lanczos)))
  ++ [Event.write (BASE_DIR (scriptPath root) ++ ["icon.ico"]) (.outIco img ico_sizes),
      Event.write (BASE_DIR (scriptPath root) ++ ["icon.icns"]) (.outIcns img icns_sizes),
      Event.print ("Generated icon assets in " ++ pathStr (BASE_DIR (scriptPath root)))]

/-- The whole script as a function of the presence and content of the
source file: either the `SystemExit` message of line 8, or the list of
side effects.  The script never reads `sys.argv` or `os.environ`. -/
def generateIcons (root : FPath) : Option SourceImage → Except String (List Event)
  | none => .error ("Source icon not found: " ++ pathStr (SOURCE_ICON (scriptPath root)))
  | some s => .ok (outputEvents root s)

/-- The filesystem, as a map from paths to optional file contents. -/
def FS := FPath → Option FileContent

/-- Apply one event to the filesystem: a write updates the map at its
path, a print leaves the filesystem unchanged. -/
def applyEvent (fs : FS) : Event → FS
  | .write p d => fun q => if q = p then some d else fs q
  | .print _ => fs

/-- Run the script against a filesystem: the existence check of lines
7–8 (error, nothing written), then decoding (an undecodable file is an
uncaught fault raised before any write), then the pipeline's writes. -/
def runScript (root : FPath) (fs : FS) : FS × Except String (List Event) :=
  match fs (SOURCE_ICON (scriptPath root)) with
  | none => (fs, .error ("Source icon not found: " ++ pathStr (SOURCE_ICON (scriptPath root))))
  | some c =>
    match c.decode with
    | none => (fs, .error "uncaught fault: source file is not a decodable image")
    | some s => ((outputEvents root s).foldl applyEvent fs, .ok (outputEvents root s))

/-- The write path of an event, if it is a write. -/
def Event.writePath : Event → Option FPath
  | .write p _ => some p
  | .print _ => none

/-- The paths written by a list of events, in order. -/
def writtenPaths (evs : List Event) : List FPath := evs.filterMap Event.writePath

/-- The five output files of the script, in the order they are written. -/
def fiveOutputPaths (root : FPath) : List FPath :=
  [BASE_DIR (scriptPath root) ++ ["32x32.png"],
   BASE_DIR (scriptPath root) ++ ["128x128.png"],
   BASE_DIR (scriptPath root) ++ ["128x128@2x.png"],
   BASE_DIR (scriptPath root) ++ ["icon.ico"],
   BASE_DIR (scriptPath root) ++ ["icon.icns"]]

/-- The effect of one event on the value stored at a fixed path `q`, as
a function of the value currently stored there. -/
def updAt (q : FPath) (a : Option FileContent) : Event → Option FileContent
  | .write p d => if q = p then some d else a
  | .print _ => a

/-- The working raster of the run on source image `s`: the decoded
raster after the minimum-size step of lines 13–14. -/
def workingRaster (s : SourceImage) : Raster := ensureMin512 (decodeRGBA s)

/-- Provenance of an output file's content from the working raster:
a PNG output is a single Lanczos resize of it, a container output stores
the working raster itself together with the fixed size list handed to
the encoder. -/
def derivedFromWorking (img : Raster) : FileContent → Prop
  | .srcPng _ => False
  | .outPng r => ∃ t, r = img.resize t .lanczos
  | .outIco r sizes => r = img ∧ sizes = ico_sizes
  | .outIcns r sizes => r = img ∧ sizes = icns_sizes

/-- The base and source paths as a function of the whole invocation
(CLI arguments and environment included): the script reads neither
`sys.argv` nor `os.environ`, so they depend on the script location
alone. -/
def resolvedPaths (root : FPath) (argv : List String) (env : List (String × String)) :
    FPath × FPath :=
  (BASE_DIR (scriptPath root), SOURCE_ICON (scriptPath root))

/-- The empty filesystem. -/
def fsEmpty : FS := fun _ => none

/-- A one-file filesystem holding only the source icon, used to
instantiate the filesystem-level theorems on concrete inputs. -/
def fsOnlySource (root : FPath) (s : SourceImage) : FS :=
  fun q => if q = SOURCE_ICON (scriptPath root) then some (.srcPng s) else none

theorem foldl_applyEvent_apply (evs : List Event) (fs : FS) (q : FPath) :
    (evs.foldl applyEvent fs) q = evs.foldl (updAt q) (fs q) := by
  induction evs generalizing fs with
  | nil => rfl
  | cons e t ih =>
    rw [List.foldl_cons, List.foldl_cons, ih]
    congr 1
    cases e <;> rfl

theorem or_or_absorb (x : Option FileContent) (a : Option FileContent) :
    x.or (x.or a) = x.or a := by
  cases x <;> rfl

theorem or_some_absorb (x : Option FileContent) (d : FileContent) (a : Option FileContent) :
    (x.or (some d)).or a = x.or (some d) := by
  cases x <;> rfl

theorem or_none_or (x : Option FileContent) (a : Option FileContent) :
    (x.or none).or a = x.or a := by
  cases x <;> rfl

theorem foldl_updAt_or (evs : List Event) (q : FPath) (a : Option FileContent) :
    evs.foldl (updAt q) a = (evs.foldl (updAt q) none).or a := by
  induction evs generalizing a with
  | nil => rfl
  | cons e t ih =>
    rw [List.foldl_cons, List.foldl_cons, ih, ih (updAt q none e)]
    cases e with
    | write p d =>
      by_cases hq : q = p
      · simp only [updAt, if_pos hq, or_some_absorb]
      · simp only [updAt, if_neg hq, or_none_or]
    | print m => simp only [updAt, or_none_or]

theorem foldl_applyEvent_idem (evs : List Event) (fs : FS) :
    evs.foldl applyEvent (evs.foldl applyEvent fs) = evs.foldl applyEvent fs := by
  funext q
  have hA : ∀ g : FS, (evs.foldl applyEvent g) q = (evs.foldl (updAt q) none).or (g q) :=
    fun g => by rw [foldl_applyEvent_apply, foldl_updAt_or]
  rw [hA, hA, or_or_absorb]

/-- The source file's path differs from every path the run writes to. -/
theorem src_ne_out (root : FPath) (n : String) (hn : ¬ n = "icon.png") :
    ¬ SOURCE_ICON (scriptPath root) = BASE_DIR (scriptPath root) ++ [n] := by
  intro hc
  apply hn
  have h2 : ["icon.png"] = [n] := List.append_cancel_left hc
  exact (List.cons.injEq _ _ _ _ ▸ h2).1.symm

/-- Folding the run's events over the value stored at the source path
leaves that value unchanged: no event writes to `icon.png`. -/
theorem source_not_written (root : FPath) (s : SourceImage) (a : Option FileContent) :
    (outputEvents root s).foldl (updAt (SOURCE_ICON (scriptPath root))) a = a := by
  simp only [outputEvents, png_targets, List.map_cons, List.map_nil, List.cons_append,
    List.nil_append, List.foldl_cons, List.foldl_nil, updAt]
  rw [if_neg (src_ne_out root _ (by decide)), if_neg (src_ne_out root _ (by decide)),
    if_neg (src_ne_out root _ (by decide)), if_neg (src_ne_out root _ (by decide)),
    if_neg (src_ne_out root _ (by decide))]

/-- C3: a decoded raster whose larger dimension is below 512 is replaced
by a 512×512 Lanczos resize of itself before any per-target resize; a
raster whose larger dimension is at least 512 is left unchanged. -/
theorem c3_minimum_size_upscale (img : Raster) :
    (max img.width img.height < 512 → ensureMin512 img = img.resize (512, 512) .lanczos) ∧
    (512 ≤ max img.width img.height → ensureMin512 img = img) := by
  constructor
  · intro h
    simp only [ensureMin512, if_pos h]
  · intro h
    simp only [ensureMin512, if_neg (Nat.not_lt.mpr h)]

theorem c3_minimum_size_upscale_witness :
    ensureMin512 (Raster.decoded 64 64 0) = (Raster.decoded 64 64 0).resize (512, 512) .lanczos ∧
    ensureMin512 (Raster.decoded 800 600 0) = Raster.decoded 800 600 0 :=
  ⟨(c3_minimum_size_upscale (Raster.decoded 64 64 0)).1 (by decide),
   (c3_minimum_size_upscale (Raster.decoded 800 600 0)).2 (by decide)⟩

/-- C5: the three PNG outputs are, in order, independent Lanczos resizes
of the same working raster to 32×32, 128×128 and 256×256, each written to
its own file; in particular `128x128@2x.png` always has pixel dimensions
exactly 256×256. -/
theorem c5_png_outputs (root : FPath) (s : SourceImage) :
    (outputEvents root s).take 3 =
      [Event.write (BASE_DIR (scriptPath root) ++ ["32x32.png"])
        (.outPng ((workingRaster s).resize (32, 32) .lanczos)),
       Event.write (BASE_DIR (scriptPath root) ++ ["128x128.png"])
        (.outPng ((workingRaster s).resize (128, 128) .lanczos)),
       Event.write (BASE_DIR (scriptPath root) ++ ["128x128@2x.png"])
        (.outPng ((workingRaster s).resize (256, 256) .lanczos))] ∧
    ((workingRaster s).resize (256, 256) .lanczos).size = (256, 256) := by
  exact ⟨rfl, rfl⟩

/-- C6: the run writes a single ICO file whose content is built by the
encoder from the working raster with the seven embedded sizes 16, 24,
32, 48, 64, 128 and 256, the per-size resizing happening inside the
encoding step (the raster handed over is the unresized working raster). -/
theorem c6_ico_entries (root : FPath) (s : SourceImage) :
    Event.write (BASE_DIR (scriptPath root) ++ ["icon.ico"])
      (.outIco (workingRaster s) ico_sizes) ∈ outputEvents root s ∧
    (FileContent.outIco (workingRaster s) ico_sizes).icoEntrySizes =
      [(16, 16), (24, 24), (32, 32), (48, 48), (64, 64), (128, 128), (256, 256)] := by
  constructor
  · simp [outputEvents, png_targets, workingRaster]
  · rfl

/-- C7: the run writes a single ICNS file whose content is built by the
encoder from the working raster with the six embedded sizes 16, 32, 64,
128, 256 and 512, the per-size resizing happening inside the encoding
step. -/
theorem c7_icns_entries (root : FPath) (s : SourceImage) :
    Event.write (BASE_DIR (scriptPath root) ++ ["icon.icns"])
      (.outIcns (workingRaster s) icns_sizes) ∈ outputEvents root s ∧
    (FileContent.outIcns (workingRaster s) icns_sizes).icnsEntrySizes =
      [(16, 16), (32, 32), (64, 64), (128, 128), (256, 256), (512, 512)] := by
  constructor
  · simp [outputEvents, png_targets, workingRaster]
  · rfl

/-- C9: the base directory is the script file's directory's parent
joined with `src-tauri/icons` (hence `<project root>/src-tauri/icons`),
the source path is `<base>/icon.png`, and neither depends on CLI
arguments or environment variables. -/
theorem c9_path_resolution (root : FPath) (argv argv2 : List String)
    (env env2 : List (String × String)) :
    resolvedPaths root argv env = resolvedPaths root argv2 env2 ∧
    (resolvedPaths root argv env).1 = (scriptPath root).parent.parent ++ ["src-tauri", "icons"] ∧
    (resolvedPaths root argv env).2 = (resolvedPaths root argv env).1 ++ ["icon.png"] ∧
    (resolvedPaths root argv env).1 = root ++ ["src-tauri", "icons"] ∧
    (resolvedPaths root argv env).2 = root ++ ["src-tauri", "icons", "icon.png"] := by
  refine ⟨rfl, rfl, by simp [resolvedPaths, SOURCE_ICON], ?_, ?_⟩ <;>
    simp [resolvedPaths, BASE_DIR, SOURCE_ICON, scriptPath, FPath.parent]

/-- C10: when the larger dimension is at least 512 but the smaller is
below 512, the working raster keeps its original, possibly non-square
dimensions and is handed unchanged to the ICO and ICNS encoders; the
smaller dimension is below the largest fixed embed size. -/
theorem c10_nonsquare_passthrough (root : FPath) (s : SourceImage)
    (hmax : 512 ≤ max s.width s.height) (hmin : min s.width s.height < 512) :
    workingRaster s = decodeRGBA s ∧
    (workingRaster s).size = (s.width, s.height) ∧
    Event.write (BASE_DIR (scriptPath root) ++ ["icon.ico"])
      (.outIco (decodeRGBA s) ico_sizes) ∈ outputEvents root s ∧
    Event.write (BASE_DIR (scriptPath root) ++ ["icon.icns"])
      (.outIcns (decodeRGBA s) icns_sizes) ∈ outputEvents root s ∧
    (min s.width s.height < 512 ∧ (512, 512) ∈ icns_sizes) := by
  have hw : workingRaster s = decodeRGBA s := by
    simp only [workingRaster, ensureMin512, decodeRGBA, Raster.width, Raster.height,
      Raster.resize]
    rw [if_neg (Nat.not_lt.mpr hmax)]
  refine ⟨hw, by rw [hw]; rfl, ?_, ?_, hmin, by simp [icns_sizes]⟩ <;>
    · rw [← hw]
      simp [outputEvents, png_targets, workingRaster]

theorem c10_nonsquare_passthrough_witness :
    workingRaster ⟨600, 100, 0⟩ = decodeRGBA ⟨600, 100, 0⟩ ∧
    (workingRaster ⟨600, 100, 0⟩).size = (600, 100) ∧
    min 600 100 < 128 :=
  ⟨(c10_nonsquare_passthrough [] ⟨600, 100, 0⟩ (by decide) (by decide)).1,
   (c10_nonsquare_passthrough [] ⟨600, 100, 0⟩ (by decide) (by decide)).2.1,
   by decide⟩

/-- C4: the working raster's longest dimension is always at least 512;
it is the decoded raster either unchanged or after exactly one 512×512
Lanczos resize, the resize happening exactly when the original's larger
dimension is below 512; and every file content the run writes is derived
from this working raster (a single per-target resize for PNGs, the
raster itself plus the fixed size list for the containers). -/
theorem c4_working_raster_invariant (root : FPath) (s : SourceImage) :
    512 ≤ max (workingRaster s).width (workingRaster s).height ∧
    (workingRaster s = decodeRGBA s ∨
      workingRaster s = (decodeRGBA s).resize (512, 512) .lanczos) ∧
    (workingRaster s = (decodeRGBA s).resize (512, 512) .lanczos ↔
      max s.width s.height < 512) ∧
    ∀ p d, Event.write p d ∈ outputEvents root s → derivedFromWorking (workingRaster s) d := by
  have hall : ∀ p d, Event.write p d ∈ outputEvents root s →
      derivedFromWorking (workingRaster s) d := by
    intro p d hp
    simp only [outputEvents, png_targets, workingRaster, List.map_cons, List.map_nil,
      List.cons_append, List.nil_append, List.mem_cons, List.not_mem_nil, or_false,
      Event.write.injEq] at hp
    rcases hp with ⟨-, rfl⟩ | ⟨-, rfl⟩ | ⟨-, rfl⟩ | ⟨-, rfl⟩ | ⟨-, rfl⟩ | hp
    · exact ⟨(32, 32), rfl⟩
    · exact ⟨(128, 128), rfl⟩
    · exact ⟨(256, 256), rfl⟩
    · exact ⟨rfl, rfl⟩
    · exact ⟨rfl, rfl⟩
    · cases hp
  by_cases h : max s.width s.height < 512
  · have hw : workingRaster s = (decodeRGBA s).resize (512, 512) .lanczos := by
      simp only [workingRaster, ensureMin512, decodeRGBA, Raster.width, Raster.height]
      rw [if_pos h]
    refine ⟨?_, Or.inr hw, ⟨fun _ => h, fun _ => hw⟩, hall⟩
    rw [hw]
    simp [Raster.resize, Raster.width, Raster.height]
  · have hw : workingRaster s = decodeRGBA s := by
      simp only [workingRaster, ensureMin512, decodeRGBA, Raster.width, Raster.height]
      rw [if_neg h]
    refine ⟨?_, Or.inl hw, ⟨?_, fun hc => absurd hc h⟩, hall⟩
    · rw [hw]
      simp only [decodeRGBA, Raster.width, Raster.height]
      omega
    · intro hc
      rw [hw] at hc
      exact absurd hc (by simp [decodeRGBA, Raster.resize])

theorem c4_working_raster_invariant_witness :
    512 ≤ max (workingRaster ⟨100, 50, 3⟩).width (workingRaster ⟨100, 50, 3⟩).height ∧
    derivedFromWorking (workingRaster ⟨100, 50, 3⟩)
      (FileContent.outIco (workingRaster ⟨100, 50, 3⟩) ico_sizes) :=
  ⟨(c4_working_raster_invariant [] ⟨100, 50, 3⟩).1,
   (c4_working_raster_invariant [] ⟨100, 50, 3⟩).2.2.2
     (BASE_DIR (scriptPath []) ++ ["icon.ico"]) _
     (by simp [outputEvents, png_targets, workingRaster])⟩

/-- C1: when the source file is absent the run changes no file (in
particular it creates no output file) and terminates with the
`SystemExit` message, which contains the resolved source path; and this
is the only explicit error check: whenever the source file exists and
decodes, the run takes the success path. -/
theorem c1_missing_source (root : FPath) (fs : FS)
    (h : fs (SOURCE_ICON (scriptPath root)) = none) :
    (runScript root fs).1 = fs ∧
    (runScript root fs).2 =
      .error ("Source icon not found: " ++ pathStr (SOURCE_ICON (scriptPath root))) ∧
    (∀ fs2 : FS, ∀ s : SourceImage,
      fs2 (SOURCE_ICON (scriptPath root)) = some (.srcPng s) →
      (runScript root fs2).2 = .ok (outputEvents root s)) := by
  refine ⟨?_, ?_, ?_⟩
  · simp only [runScript, h]
  · simp only [runScript, h]
  · intro fs2 s h2
    simp only [runScript, h2, FileContent.decode]

theorem c1_missing_source_witness :
    (runScript [] fsEmpty).1 = fsEmpty ∧
    (runScript [] fsEmpty).2 =
      .error ("Source icon not found: " ++ pathStr (SOURCE_ICON (scriptPath []))) :=
  ⟨(c1_missing_source [] fsEmpty rfl).1, (c1_missing_source [] fsEmpty rfl).2.1⟩

/-- C2: when the source file exists and decodes, the run writes exactly
the five output files `32x32.png`, `128x128.png`, `128x128@2x.png`,
`icon.ico`, `icon.icns` in the icons directory (each of the five paths
holds a file afterwards), and it succeeds; any erroring run leaves the
filesystem unchanged, so all five outputs are written or none. -/
theorem c2_all_or_nothing (root : FPath) (fs : FS) :
    (∀ s, fs (SOURCE_ICON (scriptPath root)) = some (.srcPng s) →
      writtenPaths (outputEvents root s) = fiveOutputPaths root ∧
      (runScript root fs).2 = .ok (outputEvents root s) ∧
      ∀ p, p ∈ fiveOutputPaths root → ∃ d, (runScript root fs).1 p = some d) ∧
    (∀ msg, (runScript root fs).2 = .error msg → (runScript root fs).1 = fs) := by
  constructor
  · intro s h
    refine ⟨rfl, by simp only [runScript, h, FileContent.decode], ?_⟩
    intro p hp
    have h1 : (runScript root fs).1 = (outputEvents root s).foldl applyEvent fs := by
      simp only [runScript, h, FileContent.decode]
    rw [h1, foldl_applyEvent_apply]
    simp only [fiveOutputPaths, List.mem_cons, List.not_mem_nil, or_false] at hp
    simp only [outputEvents, png_targets, List.map_cons, List.map_nil, List.cons_append,
      List.nil_append, List.foldl_cons, List.foldl_nil, updAt]
    rcases hp with rfl | rfl | rfl | rfl | rfl <;>
      split_ifs <;>
        first
          | exact ⟨_, rfl⟩
          | exact absurd rfl (by assumption)
  · intro msg hmsg
    rcases hsrc : fs (SOURCE_ICON (scriptPath root)) with _ | c
    · simp only [runScript, hsrc]
    · rcases hdec : c.decode with _ | s
      · simp only [runScript, hsrc, hdec]
      · simp only [runScript, hsrc, hdec] at hmsg
        exact Except.noConfusion hmsg

theorem c2_all_or_nothing_witness :
    writtenPaths (outputEvents [] ⟨512, 512, 0⟩) = fiveOutputPaths [] ∧
    (runScript [] (fsOnlySource [] ⟨512, 512, 0⟩)).2 = .ok (outputEvents [] ⟨512, 512, 0⟩) := by
  have h := (c2_all_or_nothing [] (fsOnlySource [] ⟨512, 512, 0⟩)).1 ⟨512, 512, 0⟩
    (by simp [fsOnlySource])
  exact ⟨h.1, h.2.1⟩

/-- C8: running the script a second time on the filesystem produced by a
first successful run reads the same unchanged source and overwrites every
output with identical content, leaving the filesystem (and the outcome)
exactly as after the first run — the generator is idempotent as a
filesystem transformer. -/
theorem c8_idempotent (root : FPath) (fs : FS) (s : SourceImage)
    (h : fs (SOURCE_ICON (scriptPath root)) = some (.srcPng s)) :
    (runScript root (runScript root fs).1).1 = (runScript root fs).1 ∧
    (runScript root (runScript root fs).1).2 = (runScript root fs).2 := by
  have h1 : (runScript root fs).1 = (outputEvents root s).foldl applyEvent fs := by
    simp only [runScript, h, FileContent.decode]
  have h2 : (runScript root fs).2 = .ok (outputEvents root s) := by
    simp only [runScript, h, FileContent.decode]
  have hsrc : ((outputEvents root s).foldl applyEvent fs) (SOURCE_ICON (scriptPath root))
      = some (.srcPng s) := by
    rw [foldl_applyEvent_apply, source_not_written, h]
  rw [h1, h2]
  constructor
  · simp only [runScript, hsrc, FileContent.decode]
    exact foldl_applyEvent_idem _ _
  · simp only [runScript, hsrc, FileContent.decode]

theorem c8_idempotent_witness :
    (runScript [] (runScript [] (fsOnlySource [] ⟨512, 512, 0⟩)).1).1 =
      (runScript [] (fsOnlySource [] ⟨512, 512, 0⟩)).1 ∧
    (runScript [] (runScript [] (fsOnlySource [] ⟨512, 512, 0⟩)).1).2 =
      (runScript [] (fsOnlySource [] ⟨512, 512, 0⟩)).2 :=
  c8_idempotent [] (fsOnlySource [] ⟨512, 512, 0⟩) ⟨512, 512, 0⟩ (by simp [fsOnlySource])

end IconGen
